import Mathlib

/-!
Verification development for the wolfy-brain online prediction-and-decision
loop.  The JavaScript source is embedded shallowly: price records become a
`PriceRecord` structure over `Rat`, the feature encoder and training-set
builder become Lean functions, the `for` loop of `getTrainingSet` is given
explicit fuel (its JavaScript exit condition is an inequality test that can
fail to ever hold), and the external neural-network capability is a type
parameter together with abstract activate/propagate/train functions.
-/

namespace WolfyBrain

/-- A market price record, as produced by the external price feed
(fields of the wolfy-models Price schema used by this core). -/
structure PriceRecord where
  «open» : Rat
  high : Rat
  low : Rat
  last : Rat
  volume : Rat
deriving DecidableEq, Repr, Inhabited

/-- `buildInputItem(past, current)` from artificial-neural-network.js:
five binary features, one per field, `1` when the current record's field is
strictly greater than the past record's field. -/
def buildInputItem (past current : PriceRecord) : List Nat :=
  [ if current.«open» > past.«open» then 1 else 0,
    if current.high > past.high then 1 else 0,
    if current.low > past.low then 1 else 0,
    if current.last > past.last then 1 else 0,
    if current.volume > past.volume then 1 else 0 ]

/-- `getInput(window, past)`: concatenation of `buildInputItem past w`
over the window, in order. -/
def getInput (window : List PriceRecord) (past : PriceRecord) : List Nat :=
  (window.map (buildInputItem past)).flatten

/-- `getOutput(window, past)`: `1` for each window record whose `last`
strictly exceeds `past.last`, else `0`. -/
def getOutput (window : List PriceRecord) (past : PriceRecord) : List Nat :=
  window.map (fun price => if price.last > past.last then 1 else 0)

/-- One element of the training set: `{input, output}`. -/
structure TrainingExample where
  input : List Nat
  output : List Nat
deriving DecidableEq, Repr

/-- The loop body of `getTrainingSet` at index `i`: JavaScript
`past = prices[i-1]`, `input = getInput(prices.slice(i, i+1), past)`,
`output = getOutput(prices.slice(i+1, i+2), past)`.  `slice` of an
out-of-range index is the empty window, in which case `past` is never
dereferenced, so an arbitrary default stands in for JavaScript `undefined`. -/
def trainingExampleAt (prices : List PriceRecord) (i : Nat) : TrainingExample :=
  let past := prices.getD (i - 1) default
  { input := getInput ((prices.drop i).take 1) past,
    output := getOutput ((prices.drop (i + 1)).take 1) past }

/-- The `for (let i = 1; i !== prices.length - 2; i++)` loop of
`getTrainingSet`, with explicit fuel: the JavaScript condition is an exact
inequality test against `prices.length - 2` (an integer that is negative or
zero for short inputs), so the loop terminates only if the counter ever
equals it.  `none` means the fuel ran out before the exit condition held. -/
def getTrainingSetLoop (prices : List PriceRecord) :
    Nat → Nat → List TrainingExample → Option (List TrainingExample)
  | 0, _, _ => none
  | fuel + 1, i, acc =>
    if (i : Int) = (prices.length : Int) - 2 then
      some acc.reverse
    else
      getTrainingSetLoop prices fuel (i + 1) (trainingExampleAt prices i :: acc)

/-- `getTrainingSet(prices)`: run the loop from `i = 1` with an empty
accumulator. -/
def getTrainingSet (prices : List PriceRecord) (fuel : Nat) :
    Option (List TrainingExample) :=
  getTrainingSetLoop prices fuel 1 []

/-- The three trading decisions of the decision engine. -/
inductive Decision where
  | RAISE
  | FALL
  | STABLE
deriving DecidableEq, Repr

/-- The threshold bands of `activate` in index.js: `result > 0.7` buys
(RAISE), `result < 0.3` sells (FALL), otherwise the stock is logged as
stable. -/
def decide (result : Rat) : Decision :=
  if result > 7 / 10 then Decision.RAISE
  else if result < 3 / 10 then Decision.FALL
  else Decision.STABLE

/-- An Order document (wolfy-models Order schema fields used here).
`isActive` is `none` when the field was never assigned on the document. -/
structure Order where
  symbol : String
  amount : Rat
  value : Rat
  type : String
  isActive : Option Bool
deriving DecidableEq, Repr

/-- The query filter of `sell`: `{symbol, type: 'BUY', isActive: true}`. -/
def isOpenBuy (symbol : String) (o : Order) : Bool :=
  o.symbol == symbol && o.type == "BUY" && o.isActive == some true

/-- `buy(symbol, price)` from index.js: one order of 10 units at the given
price, active, of type BUY. -/
def buy (symbol : String) (price : Rat) : Order :=
  { symbol := symbol, amount := 10, value := 10 * price,
    type := "BUY", isActive := some true }

/-- The SELL order that `sell` creates for one matched open BUY order
`item`: same symbol and amount, value `item.amount * price`; `isActive` is
never assigned. -/
def sellOrderFor (price : Rat) (item : Order) : Order :=
  { symbol := item.symbol, amount := item.amount, value := item.amount * price,
    type := "SELL", isActive := none }

/-- `sell(symbol, price)` from index.js over a modelled order store: the
first component is the list of SELL orders created (one per matched open
BUY order, in store order) and the second is the store after each matched
order's `isActive` has been set to `false`. -/
def sell (symbol : String) (price : Rat) (store : List Order) :
    List Order × List Order :=
  ((store.filter (isOpenBuy symbol)).map (sellOrderFor price),
   store.map (fun o =>
     if isOpenBuy symbol o then { o with isActive := some false } else o))

/-- Observable steps of one tick of the online loop. -/
inductive TickEvent where
  | logNullPrice
  | propagated (expected : Rat)
  | activated (result : Rat)
  | audited (result : Rat)
  | buyOrder
  | sellOrders
  | logStable
  | persisted
deriving DecidableEq, Repr

/-- The side effect of a decision in `activate`: RAISE stores one buy
order, FALL runs `sell` (updated store followed by the new SELL orders),
STABLE only logs. -/
def applyDecision (symbol : String) (price : Rat) (store : List Order) :
    Decision → List Order × List TickEvent
  | Decision.RAISE => (store ++ [buy symbol price], [TickEvent.buyOrder])
  | Decision.FALL =>
      let res := sell symbol price store
      (res.2 ++ res.1, [TickEvent.sellOrders])
  | Decision.STABLE => (store, [TickEvent.logStable])

/-- JavaScript runtime failures this core can hit while handling a tick. -/
inductive JsError where
  | jsonParse
  | typeError
deriving DecidableEq, Repr

/-- Outcome of `JSON.parse` on the raw payload followed by the falsiness
check `if (!price)`: a usable record, a falsy/null value, or a parse
exception. -/
inductive ParseResult where
  | ok (price : PriceRecord)
  | nullish
  | malformed
deriving DecidableEq, Repr

/-- The expected-output computation inside `propagate(symbol, oldPrice,
newPrice)`: `1` when `newPrice.last > oldPrice.last`, `0` when smaller,
`0.5` otherwise.  Reading `.last` from a missing (undefined) record throws
a TypeError. -/
def expectedOf (oldPrice newPrice : Option PriceRecord) : Except JsError Rat :=
  match newPrice, oldPrice with
  | some np, some op =>
      Except.ok (if np.last > op.last then 1
                 else if np.last < op.last then 0
                 else 1 / 2)
  | _, _ => Except.error JsError.typeError

/-- `ArtificialNeuralNetwork.activate(past, current)`: builds the input item
and runs the external network's forward pass on it. -/
def annActivate {W : Type} (netActivate : W → List Nat → Rat)
    (w : W) (past current : PriceRecord) : Rat :=
  netActivate w (buildInputItem past current)

/-- `ArtificialNeuralNetwork.propagate(expected)`: one backward step of the
external network with learning rate `0.1` and target vector `[expected]`. -/
def annPropagate {W : Type} (netPropagate : W → Rat → List Rat → W)
    (w : W) (expected : Rat) : W :=
  netPropagate w (1 / 10) [expected]

/-- The state and trace left by one run of the tick handler: the symbol's
model weights, the order store, the audit records (NetworkOutput documents),
the events that happened in order, and the uncaught failure if any. -/
structure Outcome (W : Type) where
  weights : W
  orders : List Order
  audits : List (String × Rat)
  events : List TickEvent
  failure : Option JsError
deriving DecidableEq

/-- `onMessage(topic, symbol, price)` from index.js, for one symbol, after
the store returned `past` (the two most recent prior records,
most-recent-first).  The payload is parsed first; a falsy record is logged
and dropped; otherwise `propagate(symbol, past[1], past[0])` runs (reading
`.last` of both records), then `activate(symbol, past[0], price)` produces
the score, the audit record is saved, the decision's side effect runs and
the model is persisted. -/
def onMessage {W : Type}
    (netActivate : W → List Nat → Rat)
    (netPropagate : W → Rat → List Rat → W)
    (symbol : String) (w : W) (store : List Order)
    (audits : List (String × Rat))
    (past : List PriceRecord) (parsed : ParseResult) : Outcome W :=
  match parsed with
  | ParseResult.malformed =>
      { weights := w, orders := store, audits := audits,
        events := [], failure := some JsError.jsonParse }
  | ParseResult.nullish =>
      { weights := w, orders := store, audits := audits,
        events := [TickEvent.logNullPrice], failure := none }
  | ParseResult.ok price =>
      match expectedOf (past.get? 1) (past.get? 0) with
      | Except.error e =>
          { weights := w, orders := store, audits := audits,
            events := [], failure := some e }
      | Except.ok expected =>
          let w1 := annPropagate netPropagate w expected
          match past.get? 0 with
          | none =>
              { weights := w1, orders := store, audits := audits,
                events := [TickEvent.propagated expected],
                failure := some JsError.typeError }
          | some old =>
              let result := annActivate netActivate w1 old price
              let res := applyDecision symbol price.last store (decide result)
              { weights := w1, orders := res.1,
                audits := audits ++ [(symbol, result)],
                events := [TickEvent.propagated expected,
                           TickEvent.activated result,
                           TickEvent.audited result] ++ res.2 ++
                          [TickEvent.persisted],
                failure := none }

/-- The Trainer options passed by `ArtificialNeuralNetwork.train`. -/
structure TrainerConfig where
  rate : Rat
  iterations : Nat
  error : Rat
  log : Nat
deriving DecidableEq, Repr

/-- The literal config `{rate: .1, iterations: 10000, error: .005, log: 500}`. -/
def trainConfig : TrainerConfig :=
  { rate := 1 / 10, iterations := 10000, error := 5 / 1000, log := 500 }

/-- Observable steps of `ArtificialNeuralNetwork.train`. -/
inductive TrainEvent where
  | logNoPrices
  | trained (iterations : Nat)
  | stored
deriving DecidableEq, Repr

/-- `ArtificialNeuralNetwork.train(prices)`: the guard `if (!prices ||
!prices.length)` logs and returns; otherwise the training set is built
(with fuel, since `getTrainingSet` need not terminate), the external
trainer runs with `trainConfig`, and the network is stored.  `none` means
the training-set loop exhausted its fuel. -/
def train {W : Type}
    (trainerTrain : W → List TrainingExample → TrainerConfig → W × Nat)
    (w : W) (prices : Option (List PriceRecord)) (fuel : Nat) :
    Option (W × List TrainEvent) :=
  match prices with
  | none => some (w, [TrainEvent.logNoPrices])
  | some ps =>
      if ps.length = 0 then some (w, [TrainEvent.logNoPrices])
      else
        match getTrainingSet ps fuel with
        | none => none
        | some ts =>
            let res := trainerTrain w ts trainConfig
            some (res.1, [TrainEvent.trained res.2, TrainEvent.stored])

/-- A record every field of which is below `recHi`'s. -/
def recLo : PriceRecord := ⟨1, 1, 1, 1, 1⟩

/-- A record every field of which is above `recLo`'s. -/
def recHi : PriceRecord := ⟨2, 3, 4, 5, 6⟩

/-- The scenario store: two open ACME buy orders of amounts 5 and 3. -/
def demoStore : List Order :=
  [{ symbol := "ACME", amount := 5, value := 50, type := "BUY", isActive := some true },
   { symbol := "ACME", amount := 3, value := 30, type := "BUY", isActive := some true }]

/-- Four records whose `last` values are 1, 2, 1, 4. -/
def demoPrices : List PriceRecord :=
  [⟨1, 1, 1, 1, 1⟩, ⟨2, 2, 2, 2, 2⟩, ⟨3, 3, 3, 1, 3⟩, ⟨4, 4, 4, 4, 4⟩]

/-- Claim C3: the decision function maps scores strictly above 0.7 to RAISE,
scores strictly below 0.3 to FALL, and everything in between (both bounds
included) to STABLE; in particular the boundary scores 0.7 and 0.3 are
STABLE. -/
theorem decide_threshold_spec (s : Rat) :
    (7 / 10 < s → decide s = Decision.RAISE) ∧
    (s < 3 / 10 → decide s = Decision.FALL) ∧
    (3 / 10 ≤ s → s ≤ 7 / 10 → decide s = Decision.STABLE) ∧
    decide (7 / 10) = Decision.STABLE ∧
    decide (3 / 10) = Decision.STABLE := by
  refine ⟨fun h => ?_, fun h => ?_, fun h1 h2 => ?_, by norm_num [WolfyBrain.decide],
    by norm_num [WolfyBrain.decide]⟩ <;>
    simp only [WolfyBrain.decide, gt_iff_lt] <;> split_ifs <;>
    first
    | rfl
    | (exfalso; linarith)

/-- Witness for C3 at concrete scores 1, 0 and 1/2. -/
theorem decide_threshold_spec_witness :
    decide 1 = Decision.RAISE ∧ decide 0 = Decision.FALL ∧
    decide (1 / 2) = Decision.STABLE :=
  ⟨(decide_threshold_spec 1).1 (by norm_num),
   (decide_threshold_spec 0).2.1 (by norm_num),
   (decide_threshold_spec (1 / 2)).2.2.1 (by norm_num) (by norm_num)⟩

/-- Claim C5: `buildInputItem` returns exactly 5 values, componentwise 1
when the current record's field (open, high, low, last, volume, in that
order) strictly exceeds the past record's field and 0 otherwise; all-greater
pairs give `[1,1,1,1,1]` and pairs where no field exceeds (ties included)
give `[0,0,0,0,0]`. -/
theorem buildInputItem_spec (past current : PriceRecord) :
    (buildInputItem past current).length = 5 ∧
    (buildInputItem past current).get? 0 =
      some (if current.«open» > past.«open» then 1 else 0) ∧
    (buildInputItem past current).get? 1 =
      some (if current.high > past.high then 1 else 0) ∧
    (buildInputItem past current).get? 2 =
      some (if current.low > past.low then 1 else 0) ∧
    (buildInputItem past current).get? 3 =
      some (if current.last > past.last then 1 else 0) ∧
    (buildInputItem past current).get? 4 =
      some (if current.volume > past.volume then 1 else 0) ∧
    (past.«open» < current.«open» → past.high < current.high →
      past.low < current.low → past.last < current.last →
      past.volume < current.volume →
      buildInputItem past current = [1, 1, 1, 1, 1]) ∧
    (current.«open» ≤ past.«open» → current.high ≤ past.high →
      current.low ≤ past.low → current.last ≤ past.last →
      current.volume ≤ past.volume →
      buildInputItem past current = [0, 0, 0, 0, 0]) := by
  refine ⟨rfl, rfl, rfl, rfl, rfl, rfl, fun h1 h2 h3 h4 h5 => ?_,
    fun h1 h2 h3 h4 h5 => ?_⟩
  · simp only [buildInputItem, gt_iff_lt, if_pos h1, if_pos h2, if_pos h3,
      if_pos h4, if_pos h5]
  · simp only [buildInputItem, gt_iff_lt, if_neg (not_lt.2 h1),
      if_neg (not_lt.2 h2), if_neg (not_lt.2 h3), if_neg (not_lt.2 h4),
      if_neg (not_lt.2 h5)]

/-- Witness for C5: records `recLo`/`recHi` and the all-equal pair. -/
theorem buildInputItem_spec_witness :
    buildInputItem recLo recHi = [1, 1, 1, 1, 1] ∧
    buildInputItem recHi recLo = [0, 0, 0, 0, 0] ∧
    buildInputItem recLo recLo = [0, 0, 0, 0, 0] :=
  ⟨(buildInputItem_spec recLo recHi).2.2.2.2.2.2.1 (by decide) (by decide)
      (by decide) (by decide) (by decide),
   (buildInputItem_spec recHi recLo).2.2.2.2.2.2.2 (by decide) (by decide)
      (by decide) (by decide) (by decide),
   (buildInputItem_spec recLo recLo).2.2.2.2.2.2.2 (by decide) (by decide)
      (by decide) (by decide) (by decide)⟩

/-- Claim C7: a RAISE decision creates exactly one buy order with amount 10,
value 10 times the price, type BUY and `isActive` true. -/
theorem buy_raise_spec (symbol : String) (price : Rat) (store : List Order) :
    (buy symbol price).symbol = symbol ∧
    (buy symbol price).amount = 10 ∧
    (buy symbol price).value = 10 * price ∧
    (buy symbol price).type = "BUY" ∧
    (buy symbol price).isActive = some true ∧
    applyDecision symbol price store Decision.RAISE =
      (store ++ [buy symbol price], [TickEvent.buyOrder]) :=
  ⟨rfl, rfl, rfl, rfl, rfl, rfl⟩

/-- Claim C8: training on an undefined or empty price list only logs the
error: the weights are returned unchanged, the external trainer contributes
nothing, and no snapshot-store step happens. -/
theorem train_empty_noop {W : Type}
    (trainerTrain : W → List TrainingExample → TrainerConfig → W × Nat)
    (w : W) (fuel : Nat) :
    train trainerTrain w none fuel = some (w, [TrainEvent.logNoPrices]) ∧
    train trainerTrain w (some []) fuel = some (w, [TrainEvent.logNoPrices]) :=
  ⟨rfl, rfl⟩

/-- Claim C9: a tick whose payload parses to a falsy record is logged and
dropped with nothing else happening, and a tick whose payload does not parse
fails the handler without any propagate, activate, audit, order or persist
step; in both cases weights, orders and audits are untouched. -/
theorem onMessage_bad_tick_spec {W : Type}
    (netActivate : W → List Nat → Rat)
    (netPropagate : W → Rat → List Rat → W)
    (symbol : String) (w : W) (store : List Order)
    (audits : List (String × Rat)) (past : List PriceRecord) :
    onMessage netActivate netPropagate symbol w store audits past
        ParseResult.nullish =
      { weights := w, orders := store, audits := audits,
        events := [TickEvent.logNullPrice], failure := none } ∧
    onMessage netActivate netPropagate symbol w store audits past
        ParseResult.malformed =
      { weights := w, orders := store, audits := audits,
        events := [], failure := some JsError.jsonParse } :=
  ⟨rfl, rfl⟩

/-- For short inputs the loop of `getTrainingSet` can never meet its exit
condition `i !== prices.length - 2`: the counter starts at 1 and only grows,
while `prices.length - 2` is at most 0, so every amount of fuel runs out. -/
theorem getTrainingSetLoop_stuck (prices : List PriceRecord)
    (h : prices.length < 3) :
    ∀ (fuel i : Nat) (acc : List TrainingExample), 1 ≤ i →
      getTrainingSetLoop prices fuel i acc = none := by
  intro fuel
  induction fuel with
  | zero => intro i acc _; rfl
  | succ f ih =>
      intro i acc hi
      have hne : ¬ ((i : Int) = (prices.length : Int) - 2) := by omega
      simp only [getTrainingSetLoop, if_neg hne]
      exact ih (i + 1) _ (by omega)

/-- Claim C2 (code bug): for price sequences of length 0, 1 or 2 the
`getTrainingSet` loop never terminates (no amount of fuel reaches the exit
condition), while for length 3 it does return the empty training set. -/
theorem getTrainingSet_short_input (prices : List PriceRecord) :
    (prices.length < 3 → ∀ fuel, getTrainingSet prices fuel = none) ∧
    (prices.length = 3 → ∀ fuel, 1 ≤ fuel →
      getTrainingSet prices fuel = some []) := by
  constructor
  · intro h fuel
    exact getTrainingSetLoop_stuck prices h fuel 1 [] le_rfl
  · intro h fuel hf
    match fuel, hf with
    | f + 1, _ =>
      show getTrainingSetLoop prices (f + 1) 1 [] = some []
      have hc : ((1 : Nat) : Int) = (prices.length : Int) - 2 := by omega
      simp only [getTrainingSetLoop, if_pos hc, List.reverse_nil]

/-- Witness for C2: two records loop forever even with fuel 1000; three
records give the empty set. -/
theorem getTrainingSet_short_input_witness :
    getTrainingSet (List.replicate 2 (default : PriceRecord)) 1000 = none ∧
    getTrainingSet (List.replicate 3 (default : PriceRecord)) 1 = some [] :=
  ⟨(getTrainingSet_short_input _).1 (by simp) 1000,
   (getTrainingSet_short_input _).2 (by simp) 1 le_rfl⟩

/-- Successful run of the tick handler: when the payload parses and the
expected-output computation succeeds on the two fetched records, the handler
propagates, activates, audits, applies the decision and persists. -/
theorem onMessage_ok_run {W : Type}
    (netActivate : W → List Nat → Rat)
    (netPropagate : W → Rat → List Rat → W)
    (symbol : String) (w : W) (store : List Order)
    (audits : List (String × Rat))
    (past : List PriceRecord) (price p : PriceRecord) (e : Rat)
    (h0 : past.get? 0 = some p)
    (he : expectedOf (past.get? 1) (past.get? 0) = Except.ok e) :
    onMessage netActivate netPropagate symbol w store audits past
        (ParseResult.ok price) =
      { weights := annPropagate netPropagate w e,
        orders := (applyDecision symbol price.last store
          (decide (annActivate netActivate
            (annPropagate netPropagate w e) p price))).1,
        audits := audits ++ [(symbol, annActivate netActivate
          (annPropagate netPropagate w e) p price)],
        events := [TickEvent.propagated e,
          TickEvent.activated (annActivate netActivate
            (annPropagate netPropagate w e) p price),
          TickEvent.audited (annActivate netActivate
            (annPropagate netPropagate w e) p price)] ++
          (applyDecision symbol price.last store
            (decide (annActivate netActivate
              (annPropagate netPropagate w e) p price))).2 ++
          [TickEvent.persisted],
        failure := none } := by
  rw [h0] at he
  simp only [onMessage, h0, he]

/-- The expected value is 1 when the newer record's `last` is larger. -/
theorem expectedOf_gt {op np : PriceRecord} (h : op.last < np.last) :
    expectedOf (some op) (some np) = Except.ok 1 := by
  simp only [expectedOf, gt_iff_lt, if_pos h]

/-- The expected value is 0 when the newer record's `last` is smaller. -/
theorem expectedOf_lt {op np : PriceRecord} (h : np.last < op.last) :
    expectedOf (some op) (some np) = Except.ok 0 := by
  simp only [expectedOf, gt_iff_lt, if_neg (not_lt.2 h.le), if_pos h]

/-- The expected value is 1/2 when the two `last` values are equal. -/
theorem expectedOf_tie {op np : PriceRecord} (h : np.last = op.last) :
    expectedOf (some op) (some np) = Except.ok (1 / 2) := by
  simp only [expectedOf, gt_iff_lt, h, lt_irrefl, if_neg (lt_irrefl op.last),
    if_false]

/-- Claim C4: with prior-to-prior record `pp` (fetched second) and prior
record `p` (fetched first), the target handed to the model's backward step —
learning rate 0.1, vector `[expected]` — is exactly 1 when
`pp.last < p.last`, exactly 0 when `pp.last > p.last`, and exactly 0.5 when
they are equal. -/
theorem propagate_target_spec {W : Type}
    (netActivate : W → List Nat → Rat)
    (netPropagate : W → Rat → List Rat → W)
    (symbol : String) (w : W) (store : List Order)
    (audits : List (String × Rat))
    (past : List PriceRecord) (price pp p : PriceRecord)
    (h0 : past.get? 0 = some p) (h1 : past.get? 1 = some pp) :
    (pp.last < p.last →
      (onMessage netActivate netPropagate symbol w store audits past
        (ParseResult.ok price)).weights = netPropagate w (1 / 10) [1]) ∧
    (p.last < pp.last →
      (onMessage netActivate netPropagate symbol w store audits past
        (ParseResult.ok price)).weights = netPropagate w (1 / 10) [0]) ∧
    (pp.last = p.last →
      (onMessage netActivate netPropagate symbol w store audits past
        (ParseResult.ok price)).weights =
          netPropagate w (1 / 10) [1 / 2]) := by
  refine ⟨fun h => ?_, fun h => ?_, fun h => ?_⟩
  · rw [onMessage_ok_run netActivate netPropagate symbol w store audits past
      price p 1 h0 (by rw [h0, h1]; exact expectedOf_gt h)]
    rfl
  · rw [onMessage_ok_run netActivate netPropagate symbol w store audits past
      price p 0 h0 (by rw [h0, h1]; exact expectedOf_lt h)]
    rfl
  · rw [onMessage_ok_run netActivate netPropagate symbol w store audits past
      price p (1 / 2) h0 (by rw [h0, h1]; exact expectedOf_tie h.symm)]
    rfl

/-- Witness for C4: `last` goes 10 then 12, so the backward step receives
target 1. -/
theorem propagate_target_spec_witness :
    (onMessage (fun _ _ => (0 : Rat)) (fun _ r v => (r, v)) "A"
      ((0 : Rat), ([] : List Rat)) [] []
      [⟨0, 0, 0, 12, 0⟩, ⟨0, 0, 0, 10, 0⟩] (ParseResult.ok recLo)).weights =
      ((1 / 10 : Rat), [(1 : Rat)]) :=
  (propagate_target_spec (fun _ _ => (0 : Rat)) (fun _ r v => (r, v)) "A"
    ((0 : Rat), ([] : List Rat)) [] []
    [⟨0, 0, 0, 12, 0⟩, ⟨0, 0, 0, 10, 0⟩] recLo
    ⟨0, 0, 0, 10, 0⟩ ⟨0, 0, 0, 12, 0⟩ rfl rfl).1 (by norm_num)

/-- Claim C10: on a parsed tick the handler is total only when at least two
prior records were fetched — with fewer it throws while reading `.last` of a
missing record, before any model update, audit write, decision or
persistence; with two it completes without failure. -/
theorem onMessage_requires_two_past {W : Type}
    (netActivate : W → List Nat → Rat)
    (netPropagate : W → Rat → List Rat → W)
    (symbol : String) (w : W) (store : List Order)
    (audits : List (String × Rat))
    (past : List PriceRecord) (price : PriceRecord) :
    (past.length < 2 →
      onMessage netActivate netPropagate symbol w store audits past
          (ParseResult.ok price) =
        { weights := w, orders := store, audits := audits,
          events := [], failure := some JsError.typeError }) ∧
    (2 ≤ past.length →
      (onMessage netActivate netPropagate symbol w store audits past
        (ParseResult.ok price)).failure = none) := by
  constructor
  · intro h
    match past, h with
    | [], _ => rfl
    | [a], _ => rfl
  · intro h
    match past, h with
    | a :: b :: tl, _ =>
      rw [onMessage_ok_run netActivate netPropagate symbol w store audits
        (a :: b :: tl) price a
        (if a.last > b.last then 1 else if a.last < b.last then 0 else 1 / 2)
        rfl rfl]

/-- Witness for C10: an empty fetch fails the handler with a TypeError and
leaves everything unchanged; a two-record fetch completes. -/
theorem onMessage_requires_two_past_witness :
    onMessage (fun (_ : Rat) _ => (0 : Rat)) (fun u _ _ => u) "A" (0 : Rat)
        [] [] [] (ParseResult.ok recLo) =
      { weights := 0, orders := [], audits := [],
        events := [], failure := some JsError.typeError } ∧
    (onMessage (fun (_ : Rat) _ => (0 : Rat)) (fun u _ _ => u) "A" (0 : Rat)
        [] [] [recLo, recHi] (ParseResult.ok recLo)).failure = none :=
  ⟨(onMessage_requires_two_past (fun _ _ => (0 : Rat)) (fun u _ _ => u) "A"
      (0 : Rat) [] [] [] recLo).1 (by decide),
   (onMessage_requires_two_past (fun _ _ => (0 : Rat)) (fun u _ _ => u) "A"
      (0 : Rat) [] [] [recLo, recHi] recLo).2 (by decide)⟩

/-- The updated store entry for a matched open BUY order no longer matches
the open-buy filter. -/
theorem isOpenBuy_closed (symbol : String) (o : Order) :
    isOpenBuy symbol { o with isActive := some false } = false := by
  simp [isOpenBuy]

/-- Claim C6: a FALL-triggered `sell` emits exactly one SELL order per open
BUY position of the symbol — same amount, value amount times the sell
price — and flips every matched position's `isActive` to false, leaving no
open position of that symbol in the updated store while keeping unmatched
orders untouched. -/
theorem sell_closes_all_spec (symbol : String) (price : Rat)
    (store : List Order) :
    ((sell symbol price store).1.length =
      (store.filter (isOpenBuy symbol)).length) ∧
    (∀ j item, (store.filter (isOpenBuy symbol)).get? j = some item →
      (sell symbol price store).1.get? j =
        some { symbol := item.symbol, amount := item.amount,
               value := item.amount * price, type := "SELL",
               isActive := none }) ∧
    ((sell symbol price store).2.length = store.length) ∧
    (∀ i o, store.get? i = some o → isOpenBuy symbol o = true →
      (sell symbol price store).2.get? i =
        some { o with isActive := some false }) ∧
    (∀ i o, store.get? i = some o → isOpenBuy symbol o = false →
      (sell symbol price store).2.get? i = some o) ∧
    (∀ o ∈ (sell symbol price store).2, isOpenBuy symbol o = false) := by
  refine ⟨by simp [sell], ?_, by simp [sell], ?_, ?_, ?_⟩
  · intro j item hj
    simp only [sell, List.get?_map, hj, Option.map_some']
    rfl
  · intro i o hi ho
    simp only [sell, List.get?_map, hi, Option.map_some', if_pos ho]
  · intro i o hi ho
    simp only [sell, List.get?_map, hi, Option.map_some']
    rw [if_neg]
    simp [ho]
  · intro o ho
    simp only [sell, List.mem_map] at ho
    obtain ⟨a, _, rfl⟩ := ho
    by_cases h : isOpenBuy symbol a
    · rw [if_pos h]
      exact isOpenBuy_closed symbol a
    · rw [if_neg h]
      exact Bool.not_eq_true _ |>.mp h

/-- Witness for C6: the ACME scenario — two open buys of amounts 5 and 3
sold at price 2 yield two SELL orders of values 10 and 6 and both positions
closed. -/
theorem sell_closes_all_spec_witness :
    (sell "ACME" 2 demoStore).1.get? 0 =
      some { symbol := "ACME", amount := 5, value := 5 * 2, type := "SELL",
             isActive := none } ∧
    (sell "ACME" 2 demoStore).1.get? 1 =
      some { symbol := "ACME", amount := 3, value := 3 * 2, type := "SELL",
             isActive := none } ∧
    (sell "ACME" 2 demoStore).2.get? 0 =
      some { symbol := "ACME", amount := 5, value := 50, type := "BUY",
             isActive := some false } ∧
    (sell "ACME" 2 demoStore).2.get? 1 =
      some { symbol := "ACME", amount := 3, value := 30, type := "BUY",
             isActive := some false } :=
  ⟨(sell_closes_all_spec "ACME" 2 demoStore).2.1 0
      { symbol := "ACME", amount := 5, value := 50, type := "BUY",
        isActive := some true } (by decide),
   (sell_closes_all_spec "ACME" 2 demoStore).2.1 1
      { symbol := "ACME", amount := 3, value := 30, type := "BUY",
        isActive := some true } (by decide),
   (sell_closes_all_spec "ACME" 2 demoStore).2.2.2.1 0
      { symbol := "ACME", amount := 5, value := 50, type := "BUY",
        isActive := some true } (by decide) (by decide),
   (sell_closes_all_spec "ACME" 2 demoStore).2.2.2.1 1
      { symbol := "ACME", amount := 3, value := 30, type := "BUY",
        isActive := some true } (by decide) (by decide)⟩

/-- `slice(i, i+1)` of a list whose `i`-th element exists is that single
element. -/
theorem take_one_drop {α : Type} (l : List α) :
    ∀ (i : Nat) (a : α), l.get? i = some a → (l.drop i).take 1 = [a] := by
  induction l with
  | nil => intro i a h; simp at h
  | cons b tl ih =>
      intro i a h
      cases i with
      | zero =>
          simp only [List.get?_cons_zero, Option.some_inj] at h
          simp [h]
      | succ j => simpa using ih j a (by simpa using h)

/-- Running the `getTrainingSet` loop with enough fuel from counter `i`,
exactly `k` steps from the exit value, appends one example per remaining
index. -/
theorem getTrainingSetLoop_run (prices : List PriceRecord) :
    ∀ (k fuel i : Nat) (acc : List TrainingExample),
      (i : Int) + k = (prices.length : Int) - 2 →
      k < fuel →
      getTrainingSetLoop prices fuel i acc =
        some (acc.reverse ++
          (List.range' i k).map (trainingExampleAt prices)) := by
  intro k
  induction k with
  | zero =>
      intro fuel i acc hk hf
      match fuel, hf with
      | f + 1, _ =>
        have hc : (i : Int) = (prices.length : Int) - 2 := by omega
        simp only [getTrainingSetLoop, if_pos hc, List.range'_zero,
          List.map_nil, List.append_nil]
  | succ k ih =>
      intro fuel i acc hk hf
      match fuel, hf with
      | f + 1, _ =>
        have hc : ¬ ((i : Int) = (prices.length : Int) - 2) := by omega
        simp only [getTrainingSetLoop, if_neg hc]
        rw [ih f (i + 1) (trainingExampleAt prices i :: acc)
          (by push_cast; omega) (by omega)]
        simp [List.range'_succ, List.reverse_cons]

/-- With enough fuel, `getTrainingSet` on at least 4 records returns the
examples for indices 1 through `length - 3`. -/
theorem getTrainingSet_run (prices : List PriceRecord) (fuel : Nat)
    (h4 : 4 ≤ prices.length) (hf : prices.length ≤ fuel + 2) :
    getTrainingSet prices fuel =
      some ((List.range' 1 (prices.length - 3)).map
        (trainingExampleAt prices)) := by
  have h := getTrainingSetLoop_run prices (prices.length - 3) fuel 1 []
    (by omega) (by omega)
  simpa [getTrainingSet] using h

/-- The loop body at an in-range index builds the claimed example. -/
theorem trainingExampleAt_eq (prices : List PriceRecord) (i : Nat)
    (pPrev pCur pNext : PriceRecord)
    (hPrev : prices.get? (i - 1) = some pPrev)
    (hCur : prices.get? i = some pCur)
    (hNext : prices.get? (i + 1) = some pNext) :
    trainingExampleAt prices i =
      { input := buildInputItem pPrev pCur,
        output := [if pNext.last > pPrev.last then 1 else 0] } := by
  have hD : prices.getD (i - 1) default = pPrev := by
    rw [List.getD_eq_get?, hPrev]
    rfl
  unfold trainingExampleAt
  rw [take_one_drop prices i pCur hCur, take_one_drop prices (i + 1) pNext
    hNext, hD]
  simp [getInput, getOutput]

/-- Claim C1: on at least 4 records (and with fuel covering the loop's
iterations) `getTrainingSet` yields exactly `length - 3` examples, the
`i`-th of which (1-based) pairs `buildInputItem prices[i-1] prices[i]` with
the one-element output `[prices[i+1].last > prices[i-1].last]`. -/
theorem getTrainingSet_spec (prices : List PriceRecord) (fuel : Nat)
    (h4 : 4 ≤ prices.length) (hf : prices.length ≤ fuel + 2) :
    ∃ l, getTrainingSet prices fuel = some l ∧
      l.length = prices.length - 3 ∧
      ∀ i pPrev pCur pNext, 1 ≤ i → i ≤ prices.length - 3 →
        prices.get? (i - 1) = some pPrev →
        prices.get? i = some pCur →
        prices.get? (i + 1) = some pNext →
        l.get? (i - 1) =
          some { input := buildInputItem pPrev pCur,
                 output := [if pNext.last > pPrev.last then 1 else 0] } := by
  refine ⟨_, getTrainingSet_run prices fuel h4 hf,
    by simp [List.length_range'], ?_⟩
  intro i pPrev pCur pNext h1 h2 hPrev hCur hNext
  rw [List.get?_map,
    List.get?_range' 1 1 (show i - 1 < prices.length - 3 by omega),
    Option.map_some', show 1 + 1 * (i - 1) = i by omega,
    trainingExampleAt_eq prices i pPrev pCur pNext hPrev hCur hNext]

/-- Witness for C1: `demoPrices` (length 4, `last` values 1, 2, 1, 4) gives
exactly one example, whose input compares records 0 and 1 and whose output
is `[0]` because `last` goes 1 to 1 over the window. -/
theorem getTrainingSet_spec_witness :
    ∃ l, getTrainingSet demoPrices 10 = some l ∧ l.length = 1 ∧
      l.get? 0 = some { input := [1, 1, 1, 1, 1], output := [0] } := by
  obtain ⟨l, hl, hlen, hidx⟩ := getTrainingSet_spec demoPrices 10
    (by decide) (by decide)
  refine ⟨l, hl, by simpa using hlen, ?_⟩
  have h := hidx 1 ⟨1, 1, 1, 1, 1⟩ ⟨2, 2, 2, 2, 2⟩ ⟨3, 3, 3, 1, 3⟩ le_rfl
    (by decide) (by decide) (by decide) (by decide)
  simpa [buildInputItem] using h

end WolfyBrain
